import Mathlib

/-!
Shallow embedding of `src/main.py` (pino-proxy): the symbol Router
(`get_clean_symbol`, `is_indian_stock`), the mock history generator and the
`/quote`, `/history` and `/fundamentals` endpoint handlers.

Modelling conventions:
* Python floats are modelled as rationals (`ℚ`), datetimes as integer day
  numbers (`ℤ`), so `datetime.now()` becomes an explicit `today : ℤ`
  argument and `timedelta(days = n)` becomes subtraction of `n`.
* `random.random()` / `random.uniform(...)` draws are explicit function
  arguments (the theorems carry the range hypotheses of the sampler).
* The TrueData websocket session and the two outbound HTTP calls are
  explicit functional arguments; a raised exception is `Except.error`.
* `time.sleep(0.2)` between the two cache probes of `/quote` is modelled by
  giving the session two cache snapshots, `live_data₁` (first probe) and
  `live_data₂` (the re-check after the wait); the duration itself is not
  modelled.
* A Python dict response is a structure whose optional keys are `Option`
  fields; `dict.get(k, d)` is `Option.getD`.
-/

namespace PinoProxy

/-- Python `s.endswith(suf)`, computed on the character lists. -/
def endsWithStr (s suf : String) : Bool :=
  suf.toList.isSuffixOf s.toList

/-- Worker for `pyReplace`: replace every occurrence of `pat` (left to
right, non-overlapping) by `rep`. The fuel argument (instantiated with the
length of the list) only makes the recursion structural; with a non-empty
`pat` it is never exhausted. -/
def replaceChars (pat rep : List Char) : Nat → List Char → List Char
  | _, [] => []
  | 0, l => l
  | fuel + 1, c :: rest =>
    if pat.isPrefixOf (c :: rest) then
      rep ++ replaceChars pat rep fuel ((c :: rest).drop pat.length)
    else
      c :: replaceChars pat rep fuel rest

/-- Python `s.replace(pat, rep)`: every occurrence of `pat` anywhere in `s`
is replaced. The handlers only call it with the patterns ".NS" and ".BO". -/
def pyReplace (s pat rep : String) : String :=
  String.mk (replaceChars pat.toList rep.toList s.toList.length s.toList)

/-- The `INDEX_MAP` table of `src/main.py`. -/
def INDEX_MAP : List (String × String) :=
  [("^NSEI", "NIFTY 50"), ("^BSESN", "SENSEX"),
   ("NIFTY_50", "NIFTY 50"), ("NIFTY_BANK", "BANKNIFTY")]

/-- Python `d.get(k)` on an association list (`none` when `k` is no key). -/
def dictGet (m : List (String × String)) (k : String) : Option String :=
  (m.find? (fun p => p.1 == k)).map (fun p => p.2)

/-- `get_clean_symbol` of `src/main.py`:
`INDEX_MAP.get(symbol, symbol.replace(".NS", "").replace(".BO", ""))`. -/
def get_clean_symbol (symbol : String) : String :=
  match dictGet INDEX_MAP symbol with
  | some v => v
  | none => pyReplace (pyReplace symbol ".NS" "") ".BO" ""

/-- `is_indian_stock` of `src/main.py`:
`symbol.endswith(".NS") or symbol.endswith(".BO") or symbol in INDEX_MAP`. -/
def is_indian_stock (symbol : String) : Bool :=
  endsWithStr symbol ".NS" || endsWithStr symbol ".BO" ||
    (dictGet INDEX_MAP symbol).isSome

/-- Rendition of the words of the specification for the canonical symbol
(not of the code): the alias value when the symbol is a key of the table,
else the configured suffixes stripped by exact match on the trailing
characters only, each suffix considered independently on the original
string. Used only to compare the specified canonicalisation with
`get_clean_symbol`. -/
def spec_clean_symbol (symbol : String) : String :=
  match dictGet INDEX_MAP symbol with
  | some v => v
  | none =>
    if endsWithStr symbol ".NS" then
      String.mk (symbol.toList.take (symbol.toList.length - 3))
    else if endsWithStr symbol ".BO" then
      String.mk (symbol.toList.take (symbol.toList.length - 3))
    else symbol

/-- A live TrueData tick as read by `/quote`. Every field the handler reads
with `getattr(tick, f, 0)` is optional; `none` models a missing attribute. -/
structure Tick where
  ltp : Option ℚ := none
  change : Option ℚ := none
  change_perc : Option ℚ := none
  volume : Option ℚ := none
  day_high : Option ℚ := none
  day_low : Option ℚ := none
  bid1_rate : Option ℚ := none
  bid1_qty : Option ℚ := none
  bid2_rate : Option ℚ := none
  bid2_qty : Option ℚ := none
  bid3_rate : Option ℚ := none
  bid3_qty : Option ℚ := none
  bid4_rate : Option ℚ := none
  bid4_qty : Option ℚ := none
  bid5_rate : Option ℚ := none
  bid5_qty : Option ℚ := none
  ask1_rate : Option ℚ := none
  ask1_qty : Option ℚ := none
  ask2_rate : Option ℚ := none
  ask2_qty : Option ℚ := none
  ask3_rate : Option ℚ := none
  ask3_qty : Option ℚ := none
  ask4_rate : Option ℚ := none
  ask4_qty : Option ℚ := none
  ask5_rate : Option ℚ := none
  ask5_qty : Option ℚ := none
deriving DecidableEq

/-- The numbered bid rate attributes of a tick, `bid1_rate` … `bid5_rate`,
indexed 0 … 4 (any further index reads the last one). -/
def bid_rate (t : Tick) : Nat → Option ℚ
  | 0 => t.bid1_rate
  | 1 => t.bid2_rate
  | 2 => t.bid3_rate
  | 3 => t.bid4_rate
  | _ => t.bid5_rate

/-- The numbered bid quantity attributes of a tick, indexed 0 … 4. -/
def bid_qty (t : Tick) : Nat → Option ℚ
  | 0 => t.bid1_qty
  | 1 => t.bid2_qty
  | 2 => t.bid3_qty
  | 3 => t.bid4_qty
  | _ => t.bid5_qty

/-- The numbered ask rate attributes of a tick, indexed 0 … 4. -/
def ask_rate (t : Tick) : Nat → Option ℚ
  | 0 => t.ask1_rate
  | 1 => t.ask2_rate
  | 2 => t.ask3_rate
  | 3 => t.ask4_rate
  | _ => t.ask5_rate

/-- The numbered ask quantity attributes of a tick, indexed 0 … 4. -/
def ask_qty (t : Tick) : Nat → Option ℚ
  | 0 => t.ask1_qty
  | 1 => t.ask2_qty
  | 2 => t.ask3_qty
  | 3 => t.ask4_qty
  | _ => t.ask5_qty

/-- One order-book level, `{"price": ..., "qty": ...}`. -/
structure Level where
  price : ℚ
  qty : ℚ
deriving DecidableEq

/-- The `orderbook` object of a `/quote` response. -/
structure Orderbook where
  bids : List Level
  asks : List Level
deriving DecidableEq

/-- The order-book construction of `get_quote` (src/main.py lines 115-130):
five bid and five ask levels, every tick attribute read defensively with
default 0. -/
def mkOrderbook (tick : Tick) : Orderbook :=
  { bids :=
      [⟨tick.bid1_rate.getD 0, tick.bid1_qty.getD 0⟩,
       ⟨tick.bid2_rate.getD 0, tick.bid2_qty.getD 0⟩,
       ⟨tick.bid3_rate.getD 0, tick.bid3_qty.getD 0⟩,
       ⟨tick.bid4_rate.getD 0, tick.bid4_qty.getD 0⟩,
       ⟨tick.bid5_rate.getD 0, tick.bid5_qty.getD 0⟩],
    asks :=
      [⟨tick.ask1_rate.getD 0, tick.ask1_qty.getD 0⟩,
       ⟨tick.ask2_rate.getD 0, tick.ask2_qty.getD 0⟩,
       ⟨tick.ask3_rate.getD 0, tick.ask3_qty.getD 0⟩,
       ⟨tick.ask4_rate.getD 0, tick.ask4_qty.getD 0⟩,
       ⟨tick.ask5_rate.getD 0, tick.ask5_qty.getD 0⟩] }

/-- A `/quote` JSON response; keys the handler does not put in the returned
dict are `none`. -/
structure QuoteResponse where
  symbol : String
  price : ℚ
  status : Option String := none
  error : Option String := none
  change : Option ℚ := none
  change_percent : Option ℚ := none
  volume : Option ℚ := none
  high : Option ℚ := none
  low : Option ℚ := none
  orderbook : Option Orderbook := none
  currency : Option String := none
  source : Option String := none
deriving DecidableEq

/-- The `/quote` response of the vendor tick path (src/main.py
lines 132-143). -/
def tickResponse (symbol : String) (tick : Tick) : QuoteResponse :=
  { symbol := symbol,
    price := tick.ltp.getD 0,
    change := some (tick.change.getD 0),
    change_percent := some (tick.change_perc.getD 0),
    volume := some (tick.volume.getD 0),
    high := some (tick.day_high.getD 0),
    low := some (tick.day_low.getD 0),
    orderbook := some (mkOrderbook tick),
    currency := some "INR",
    source := some "TrueData" }

/-- The TrueData session handle: `start_live_data` (an exception while
calling it is `Except.error`), and the `live_data` tick cache observed at
the two probes the handler makes (before and after `time.sleep(0.2)`). -/
structure Session where
  start_live_data : List String → Except String (List Nat)
  live_data₁ : Nat → Option Tick
  live_data₂ : Nat → Option Tick

/-- The tick the handler ends up reading for a request id: the first probe
of `live_data` when it already holds the id (then no wait happens), else
the single re-check after the wait. -/
def cachedTick (s : Session) (req_id : Nat) : Option Tick :=
  match s.live_data₁ req_id with
  | some t => some t
  | none => s.live_data₂ req_id

/-- The random draws of the mock quote branch: `random.uniform(100, 3000)`,
`random.uniform(-5, 5)` and `random.uniform(-1, 1)`. -/
structure MockDraws where
  price : ℚ
  change : ℚ
  change_percent : ℚ
deriving DecidableEq

/-- A `/quote` outcome: the JSON response, plus an instrumentation bit
recording whether the handler reached the `td_app.start_live_data` call. -/
structure QuoteResult where
  response : QuoteResponse
  subscribed : Bool
deriving DecidableEq

/-- `get_quote` of `src/main.py`. `td_app` is the module-global session
(`none` when the startup hook never connected), `mock` the draws the mock
branch would use. -/
def get_quote (td_app : Option Session) (symbol : String) (mock : MockDraws) :
    QuoteResult :=
  if is_indian_stock symbol then
    match td_app with
    | none => ⟨{ symbol := symbol, price := 0, status := some "Disconnected" }, false⟩
    | some s =>
      match s.start_live_data [get_clean_symbol symbol] with
      | Except.error e => ⟨{ symbol := symbol, price := 0, error := some e }, true⟩
      | Except.ok [] => ⟨{ symbol := symbol, price := 0, status := some "Invalid Symbol" }, true⟩
      | Except.ok (req_id :: _) =>
        match cachedTick s req_id with
        | some tick => ⟨tickResponse symbol tick, true⟩
        | none => ⟨{ symbol := symbol, price := 0, status := some "Waiting for tick..." }, true⟩
  else
    ⟨{ symbol := symbol, price := mock.price, change := some mock.change,
       change_percent := some mock.change_percent, currency := some "USD",
       source := some "Mock (US)" }, false⟩

/-- A JSON scalar as it appears in a candle: a string, a number, or a
formatted calendar day (`strftime` of a date; kept abstract as the integer
day number it prints). -/
inductive JVal where
  | str : String → JVal
  | num : ℚ → JVal
  | day : ℤ → JVal
deriving DecidableEq

/-- The numeric value of a `JVal` (0 for non-numbers); used only to state
properties of candles whose fields are known to be numbers. -/
def numOf : JVal → ℚ
  | JVal.num q => q
  | _ => 0

/-- The day value of a `JVal` (0 for non-days). -/
def dayOf : JVal → ℤ
  | JVal.day d => d
  | _ => 0

/-- One candle dict as `/history` returns it. -/
structure Candle where
  date : JVal
  «open» : JVal
  high : JVal
  low : JVal
  close : JVal
  volume : JVal
deriving DecidableEq

/-- A default candle, used only as the out-of-range value of `List.getD`. -/
def dCandle : Candle :=
  ⟨JVal.num 0, JVal.num 0, JVal.num 0, JVal.num 0, JVal.num 0, JVal.num 0⟩

/-- Python `round(x, 2)`: the value rounded to two decimal places (modelled
with round-to-nearest on exact rationals). -/
def round2 (x : ℚ) : ℚ :=
  ((round (100 * x) : ℤ) : ℚ) / 100

/-- The random-walk price of `generate_mock_history` after `n` loop
iterations: `price = price * (1 + (random.random() - 0.5) * 0.03)` starting
from `base`, with `rw n` the draw of iteration `n`. -/
def walkPrice (rw : ℕ → ℚ) (base : ℚ) : ℕ → ℚ
  | 0 => base
  | n + 1 => walkPrice rw base n * (1 + (rw n - 1 / 2) * (3 / 100))

/-- `generate_mock_history` of `src/main.py`: 30 daily candles ending
yesterday, OHLC derived from the random-walk close by fixed percentage
offsets and rounded to two decimals, volume `int(random.uniform(1000,
10000))` (`rv i` is that draw for candle `i`). -/
def generate_mock_history (rw rv : ℕ → ℚ) (today : ℤ) (base : ℚ) : List Candle :=
  (List.range 30).map (fun (i : ℕ) =>
    { date := JVal.day (today - (30 - (i : ℤ))),
      «open» := JVal.num (round2 (walkPrice rw base (i + 1) * (99 / 100))),
      high := JVal.num (round2 (walkPrice rw base (i + 1) * (101 / 100))),
      low := JVal.num (round2 (walkPrice rw base (i + 1) * (98 / 100))),
      close := JVal.num (round2 (walkPrice rw base (i + 1))),
      volume := JVal.num ((⌊rv i⌋ : ℤ) : ℚ) })

/-- The query params `get_history` sends to the TrueData history endpoint
(the constant `response = "json"` entry is omitted; the `%y%m%d`-formatted
dates are kept as day numbers). -/
structure HistParams where
  symbol : String
  resolution : String
  fromDate : ℤ
  toDate : ℤ
  user : Option String
  pass : Option String
deriving DecidableEq

/-- The period → (date range, resolution) mapping of `get_history`
(src/main.py lines 174-195), as the request params it produces. -/
def history_params (symbol period : String) (today : ℤ)
    (tdUser tdPass : Option String) : HistParams :=
  if period == "1d" then
    ⟨get_clean_symbol symbol, "15min", today - 5, today, tdUser, tdPass⟩
  else if period == "1y" then
    ⟨get_clean_symbol symbol, "EOD", today - 365, today, tdUser, tdPass⟩
  else
    ⟨get_clean_symbol symbol, "EOD", today - 30, today, tdUser, tdPass⟩

/-- The parsed body of a history HTTP response: `response.json()` raised
(`parseError`), or a JSON object whose optional `"Records"` key holds a
list of rows. -/
inductive HistBody where
  | parseError : String → HistBody
  | body : Option (List (List JVal)) → HistBody
deriving DecidableEq

/-- A completed history HTTP exchange: status code and body. -/
structure HttpResult where
  status_code : ℕ
  content : HistBody
deriving DecidableEq

/-- The candle built from one payload row of at least 5 fields:
`date, open, high, low, close` are fields 0-4, `volume` is field 5 when the
row has more than 5 fields, else 0. -/
def mkCandle (row : List JVal) : Candle :=
  { date := row.getD 0 (JVal.num 0),
    «open» := row.getD 1 (JVal.num 0),
    high := row.getD 2 (JVal.num 0),
    low := row.getD 3 (JVal.num 0),
    close := row.getD 4 (JVal.num 0),
    volume := if 5 < row.length then row.getD 5 (JVal.num 0) else JVal.num 0 }

/-- A `/history` outcome: the candle list, plus an instrumentation bit
recording whether the handler reached the `requests.get` call. -/
structure HistOutcome where
  candles : List Candle
  httpAttempted : Bool
deriving DecidableEq

/-- `get_history` of `src/main.py`. `http` is the outbound
`requests.get(TD_HISTORY_URL, params, timeout=5)` call (a timeout or
connection failure is `Except.error`); `rw`, `rv` and `today` feed the mock
generator exactly as in the mock branch. -/
def get_history (symbol period : String) (today : ℤ) (rw rv : ℕ → ℚ)
    (tdUser tdPass : Option String)
    (http : HistParams → Except String HttpResult) : HistOutcome :=
  if is_indian_stock symbol then
    match http (history_params symbol period today tdUser tdPass) with
    | Except.error _ => ⟨generate_mock_history rw rv today 150, true⟩
    | Except.ok r =>
      if r.status_code = 200 then
        match r.content with
        | HistBody.parseError _ => ⟨generate_mock_history rw rv today 150, true⟩
        | HistBody.body recs =>
          ⟨(recs.getD []).filterMap
            (fun row => if 5 ≤ row.length then some (mkCandle row) else none), true⟩
      else ⟨generate_mock_history rw rv today 150, true⟩
  else ⟨generate_mock_history rw rv today 150, false⟩

/-- A shareholding dict; each of the three keys may be absent. The default
record fills all three with 0; the success path passes the vendor's dict
through unchanged, with `{}` (all keys absent) when the response lacks it. -/
structure Shareholding where
  promoters : Option ℚ := none
  institutions : Option ℚ := none
  public : Option ℚ := none
deriving DecidableEq

/-- The `forecast` object of a `/fundamentals` response. -/
structure Forecast where
  recommendation : String
  targetMean : ℚ
  targetLow : ℚ
  targetHigh : ℚ
deriving DecidableEq

/-- The fixed shape of a `/fundamentals` response. -/
structure Fundamentals where
  market_cap : ℚ
  pe_ratio : ℚ
  peg_ratio : ℚ
  book_value : ℚ
  dividend_yield : ℚ
  eps : ℚ
  profit_margin : ℚ
  roe : ℚ
  debt_to_equity : ℚ
  shareholding : Shareholding
  forecast : Forecast
  currency : String
deriving DecidableEq

/-- The flat JSON object of the TrueData company-info endpoint; every key
the handler reads is optional. -/
structure FundResponse where
  market_cap : Option ℚ := none
  pe : Option ℚ := none
  peg : Option ℚ := none
  book_value : Option ℚ := none
  dividend_yield : Option ℚ := none
  eps : Option ℚ := none
  profit_margin : Option ℚ := none
  roe : Option ℚ := none
  debt_to_equity : Option ℚ := none
  shareholding : Option Shareholding := none
  recommendation : Option String := none
  target_price : Option ℚ := none
  target_low : Option ℚ := none
  target_high : Option ℚ := none
deriving DecidableEq

/-- The query params of the company-info call. -/
structure FundParams where
  symbol : String
  user : Option String
  pass : Option String
deriving DecidableEq

/-- The `empty_data` default record of `get_fundamentals` (src/main.py
lines 230-248): every numeric field 0, shareholding all 0, recommendation
"WAITING" with all targets 0, currency chosen by the routing decision. -/
def empty_data (symbol : String) : Fundamentals :=
  { market_cap := 0, pe_ratio := 0, peg_ratio := 0, book_value := 0,
    dividend_yield := 0, eps := 0, profit_margin := 0, roe := 0,
    debt_to_equity := 0,
    shareholding := { promoters := some 0, institutions := some 0, public := some 0 },
    forecast := { recommendation := "WAITING", targetMean := 0, targetLow := 0, targetHigh := 0 },
    currency := if is_indian_stock symbol then "INR" else "USD" }

/-- A `/fundamentals` outcome: the record, plus an instrumentation bit
recording whether the handler reached the `requests.get` call. -/
structure FundOutcome where
  record : Fundamentals
  httpAttempted : Bool
deriving DecidableEq

/-- `get_fundamentals` of `src/main.py`. `http` is the outbound
`requests.get(url, params, timeout=3)` call; its payload is the status code
and the result of `response.json()` (`Except.error` when parsing raises). -/
def get_fundamentals (symbol : String) (tdUser tdPass : Option String)
    (http : FundParams → Except String (ℕ × Except String FundResponse)) :
    FundOutcome :=
  if is_indian_stock symbol then
    match http ⟨get_clean_symbol symbol, tdUser, tdPass⟩ with
    | Except.error _ => ⟨empty_data symbol, true⟩
    | Except.ok (status, body) =>
      if status = 200 then
        match body with
        | Except.error _ => ⟨empty_data symbol, true⟩
        | Except.ok real_data =>
          ⟨{ market_cap := real_data.market_cap.getD 0,
             pe_ratio := real_data.pe.getD 0,
             peg_ratio := real_data.peg.getD 0,
             book_value := real_data.book_value.getD 0,
             dividend_yield := real_data.dividend_yield.getD 0,
             eps := real_data.eps.getD 0,
             profit_margin := real_data.profit_margin.getD 0,
             roe := real_data.roe.getD 0,
             debt_to_equity := real_data.debt_to_equity.getD 0,
             shareholding := real_data.shareholding.getD {},
             forecast :=
               { recommendation := real_data.recommendation.getD "N/A",
                 targetMean := real_data.target_price.getD 0,
                 targetLow := real_data.target_low.getD 0,
                 targetHigh := real_data.target_high.getD 0 },
             currency := "INR" }, true⟩
      else ⟨empty_data symbol, true⟩
  else ⟨empty_data symbol, false⟩

/-- `startup_event` of `src/main.py`, as the value the global `td_app` gets
and whether a connection was attempted: with a falsy `TD_USER` (unset, or
the empty string) no connection is attempted and `td_app` stays `None`;
otherwise `TD(TD_USER, TD_PASS, live_port=TD_PORT)` is tried and a raised
exception is caught, leaving `td_app` as `None`. The process itself always
finishes starting. -/
def startup_event (tdUser tdPass : Option String)
    (connect : String → Option String → Except String Session) :
    Option Session × Bool :=
  match tdUser with
  | none => (none, false)
  | some u =>
    if u = "" then (none, false)
    else
      match connect u tdPass with
      | Except.ok s => (some s, true)
      | Except.error _ => (none, true)

/-! Concrete instances used by witnesses and counterexamples. -/

/-- Fixed mock-quote draws for concrete evaluations. -/
def wMock : MockDraws := ⟨100, 1, 1⟩

/-- An empty tick: every attribute absent. -/
def wTick : Tick := {}

/-- The always-empty tick cache. -/
def noTicks : Nat → Option Tick := fun _ => none

/-- A session whose subscription succeeds with an empty request-id list. -/
def wSessionNoIds : Session := ⟨fun _ => Except.ok [], noTicks, noTicks⟩

/-- A session that subscribes with request id 0 and already caches the
empty tick for it at the first probe. -/
def wSessionTick : Session := ⟨fun _ => Except.ok [0], fun _ => some wTick, noTicks⟩

/-- A history HTTP call that raises (timeout / connection error). -/
def histHttpErr : HistParams → Except String HttpResult :=
  fun _ => Except.error "connection error"

/-- A fundamentals HTTP call that raises. -/
def fundHttpErr : FundParams → Except String (ℕ × Except String FundResponse) :=
  fun _ => Except.error "timeout"

/-- A fundamentals HTTP call that succeeds with an empty JSON object. -/
def fundHttpEmpty : FundParams → Except String (ℕ × Except String FundResponse) :=
  fun _ => Except.ok (200, Except.ok {})

/-- A connection attempt that raises. -/
def wConnect : String → Option String → Except String Session :=
  fun _ _ => Except.error "cannot connect"

/-- The all-zero random draw. -/
def zeroD : ℕ → ℚ := fun _ => 0

/-- The constant-1000 random draw (inside the volume band). -/
def oneK : ℕ → ℚ := fun _ => 1000

/-- A payload row of exactly 5 fields (no volume field). -/
def fiveRow : List JVal :=
  [JVal.str "2024-01-01", JVal.num 1, JVal.num 2, JVal.num 0, JVal.num 1]

/-! Helper lemmas. -/

/-- Filtering with a guard inside `filterMap` is filtering then mapping. -/
theorem filterMap_ite {α β : Type} (P : α → Prop) [DecidablePred P] (f : α → β)
    (l : List α) :
    (l.filterMap fun a => if P a then some (f a) else none) =
      (l.filter fun a => decide (P a)).map f := by
  induction l with
  | nil => rfl
  | cons a t ih =>
    by_cases h : P a <;>
      simp [List.filterMap_cons, List.filter_cons, h, ih]

/-- Rounding to two decimals moves a value by at most 1/200. -/
theorem abs_round2_sub (x : ℚ) : |round2 x - x| ≤ 1 / 200 := by
  have h : |100 * x - round (100 * x)| ≤ 1 / 2 := abs_sub_round (100 * x)
  have hx : round2 x - x = -(100 * x - ((round (100 * x) : ℤ) : ℚ)) / 100 := by
    unfold round2; ring
  rw [hx, abs_div, abs_neg]
  rw [show |(100 : ℚ)| = 100 by norm_num]
  rw [div_le_div_iff₀ (by norm_num) (by norm_num)]
  nlinarith [h]

/-- Rounding to two decimals is monotone. -/
theorem round2_mono {x y : ℚ} (h : x ≤ y) : round2 x ≤ round2 y := by
  unfold round2
  have hr : round (100 * x) ≤ round (100 * y) := by
    rw [round_eq, round_eq]
    exact Int.floor_le_floor (by linarith)
  have hq : ((round (100 * x) : ℤ) : ℚ) ≤ ((round (100 * y) : ℤ) : ℚ) :=
    Int.cast_le.mpr hr
  linarith

/-- Rounding commutes with scaling by a small factor up to 1/50. -/
theorem round2_scale_close (p a : ℚ) (ha : 0 ≤ a) (ha2 : a ≤ 101 / 100) :
    |round2 (p * a) - round2 p * a| ≤ 1 / 50 := by
  have h1 := abs_round2_sub (p * a)
  have h2 := abs_round2_sub p
  have key : round2 (p * a) - round2 p * a =
      (round2 (p * a) - p * a) + -((round2 p - p) * a) := by ring
  rw [key]
  have tri := abs_add (round2 (p * a) - p * a) (-((round2 p - p) * a))
  rw [abs_neg, abs_mul, abs_of_nonneg ha] at tri
  have hm : |round2 p - p| * a ≤ (1 / 200) * (101 / 100) := by
    have := mul_le_mul h2 ha2 ha (by norm_num)
    linarith
  linarith

/-- The random-walk price stays positive when the draws are in [0, 1). -/
theorem walkPrice_pos (rw : ℕ → ℚ) (base : ℚ) (hbase : 0 < base)
    (hw : ∀ n, 0 ≤ rw n ∧ rw n < 1) : ∀ n, 0 < walkPrice rw base n := by
  intro n
  induction n with
  | zero => exact hbase
  | succ n ih =>
    have h0 := (hw n).1
    have hf : (0 : ℚ) < 1 + (rw n - 1 / 2) * (3 / 100) := by nlinarith
    exact mul_pos ih hf

/-- The i-th candle of the mock generator, written out. -/
theorem mock_getD (rw rv : ℕ → ℚ) (today : ℤ) (base : ℚ) (i : ℕ) (hi : i < 30) :
    (generate_mock_history rw rv today base).getD i dCandle =
    { date := JVal.day (today - (30 - (i : ℤ))),
      «open» := JVal.num (round2 (walkPrice rw base (i + 1) * (99 / 100))),
      high := JVal.num (round2 (walkPrice rw base (i + 1) * (101 / 100))),
      low := JVal.num (round2 (walkPrice rw base (i + 1) * (98 / 100))),
      close := JVal.num (round2 (walkPrice rw base (i + 1))),
      volume := JVal.num ((⌊rv i⌋ : ℤ) : ℚ) } := by
  unfold generate_mock_history
  rw [List.getD_eq_getElem?_getD, List.getElem?_map, List.getElem?_range hi]
  rfl

/-- In every branch of `get_quote`, whenever the response carries an order
book it is the one built from a tick by `mkOrderbook`. -/
theorem orderbook_from_tick (td : Option Session) (symbol : String)
    (mock : MockDraws) (ob : Orderbook)
    (h : (get_quote td symbol mock).response.orderbook = some ob) :
    ∃ t, ob = mkOrderbook t := by
  unfold get_quote at h
  repeat' split at h
  all_goals simp_all [tickResponse]
  exact ⟨_, h.symm⟩

/-! Claim theorems. -/

/-- C1 (counterexample): the claim says each configured suffix is stripped
by exact match on the trailing characters only; but `get_clean_symbol` uses
Python `str.replace`, which removes every occurrence. On "A.NS.BO" the code
yields "A" (the inner ".NS" is removed too) while the claimed trailing-only
stripping yields "A.NS". -/
theorem get_clean_symbol_strips_inner_occurrences :
    get_clean_symbol "A.NS.BO" = "A" ∧
    spec_clean_symbol "A.NS.BO" = "A.NS" ∧
    ¬ get_clean_symbol "A.NS.BO" = spec_clean_symbol "A.NS.BO" := by decide

/-- C1 (amended): the routing decision is VENDOR iff the symbol ends with
".NS" or ".BO" or is a key of `INDEX_MAP`; the canonical symbol is the
alias value for keys, and otherwise the symbol with every occurrence of
".NS" removed and then every occurrence of ".BO" removed (replace-all, not
trailing-only); the function is total and the empty string yields
(MOCK, empty string). -/
theorem router_decision_canonical (s v : String)
    (hv : dictGet INDEX_MAP s = some v)
    (s₂ : String) (h₂ : dictGet INDEX_MAP s₂ = none) :
    is_indian_stock s = true ∧
    get_clean_symbol s = v ∧
    get_clean_symbol s₂ = pyReplace (pyReplace s₂ ".NS" "") ".BO" "" ∧
    is_indian_stock s₂ = (endsWithStr s₂ ".NS" || endsWithStr s₂ ".BO") ∧
    is_indian_stock "" = false ∧
    get_clean_symbol "" = "" := by
  refine ⟨?_, ?_, ?_, ?_, by decide, by decide⟩
  · simp [is_indian_stock, hv]
  · simp [get_clean_symbol, hv]
  · simp [get_clean_symbol, h₂]
  · simp [is_indian_stock, h₂]

/-- C1 (witness): the amended router theorem at the alias "^NSEI" and the
suffixed symbol "TCS.NS". -/
theorem router_decision_canonical_witness :
    dictGet INDEX_MAP "^NSEI" = some "NIFTY 50" ∧
    dictGet INDEX_MAP "TCS.NS" = none ∧
    is_indian_stock "^NSEI" = true ∧
    get_clean_symbol "^NSEI" = "NIFTY 50" ∧
    get_clean_symbol "TCS.NS" = pyReplace (pyReplace "TCS.NS" ".NS" "") ".BO" "" ∧
    is_indian_stock "TCS.NS" = (endsWithStr "TCS.NS" ".NS" || endsWithStr "TCS.NS" ".BO") ∧
    is_indian_stock "" = false ∧
    get_clean_symbol "" = "" ∧
    get_clean_symbol "TCS.NS" = "TCS" := by
  have h := router_decision_canonical "^NSEI" "NIFTY 50" (by decide) "TCS.NS" (by decide)
  exact ⟨by decide, by decide, h.1, h.2.1, h.2.2.1, h.2.2.2.1, h.2.2.2.2.1,
    h.2.2.2.2.2, by decide⟩

/-- C2 (counterexample): the claim says every /quote response contains an
order book of 5 levels per side; but the mock branch (and the degraded
vendor branches) return a response with no `orderbook` key at all, here for
the MOCK-routed symbol "AAPL". -/
theorem mock_quote_lacks_orderbook :
    is_indian_stock "AAPL" = false ∧
    (get_quote none "AAPL" wMock).response.orderbook = none := by decide

/-- C2 (amended): every /quote response that does carry an order book has
exactly 5 bid levels and 5 ask levels, each a price/qty pair, and level
fields absent from the upstream tick appear as zero price and zero quantity
rather than being omitted; responses of the mock and degraded vendor
branches carry no order book at all. -/
theorem quote_orderbook_depth (td : Option Session) (symbol : String)
    (mock : MockDraws) (ob : Orderbook)
    (h : (get_quote td symbol mock).response.orderbook = some ob)
    (t : Tick) (i : ℕ) (hi : i < 5) :
    ob.bids.length = 5 ∧ ob.asks.length = 5 ∧
    (mkOrderbook t).bids.getD i ⟨1, 1⟩ =
      ⟨(bid_rate t i).getD 0, (bid_qty t i).getD 0⟩ ∧
    (mkOrderbook t).asks.getD i ⟨1, 1⟩ =
      ⟨(ask_rate t i).getD 0, (ask_qty t i).getD 0⟩ ∧
    (∀ sym₂ t₂, (tickResponse sym₂ t₂).orderbook = some (mkOrderbook t₂)) := by
  obtain ⟨t', rfl⟩ := orderbook_from_tick td symbol mock ob h
  refine ⟨rfl, rfl, ?_, ?_, fun sym₂ t₂ => rfl⟩
  · interval_cases i <;> rfl
  · interval_cases i <;> rfl

/-- C2 (witness): the amended order-book theorem at the vendor tick path
for "RELIANCE.NS" with an entirely empty tick, level 0. -/
theorem quote_orderbook_depth_witness :
    (get_quote (some wSessionTick) "RELIANCE.NS" wMock).response.orderbook =
      some (mkOrderbook wTick) ∧
    0 < 5 ∧
    ((mkOrderbook wTick).bids.length = 5 ∧ (mkOrderbook wTick).asks.length = 5 ∧
     (mkOrderbook wTick).bids.getD 0 ⟨1, 1⟩ =
       ⟨(bid_rate wTick 0).getD 0, (bid_qty wTick 0).getD 0⟩ ∧
     (mkOrderbook wTick).asks.getD 0 ⟨1, 1⟩ =
       ⟨(ask_rate wTick 0).getD 0, (ask_qty wTick 0).getD 0⟩ ∧
     (∀ sym₂ t₂, (tickResponse sym₂ t₂).orderbook = some (mkOrderbook t₂))) :=
  ⟨by decide, by decide,
   quote_orderbook_depth (some wSessionTick) "RELIANCE.NS" wMock
     (mkOrderbook wTick) (by decide) wTick 0 (by decide)⟩

/-- C3: for a VENDOR-routed symbol, /quote never lets a fault reach the
caller: a missing session handle immediately yields price 0 with status
"Disconnected" without touching the vendor; a subscription with no request
id yields price 0 / "Invalid Symbol"; when no tick is cached at either the
first probe or the single re-check after the bounded wait (the
`time.sleep(0.2)` between `live_data₁` and `live_data₂`), it yields price 0
with status "Waiting for tick..."; and an exception raised by the vendor
call is caught and returned as a price-0 response with an `error` field. -/
theorem quote_fault_containment (symbol : String)
    (h : is_indian_stock symbol = true) (mock : MockDraws) (e : String)
    (ld₁ ld₂ : ℕ → Option Tick) (r : ℕ) (rs : List ℕ) :
    get_quote none symbol mock =
      ⟨{ symbol := symbol, price := 0, status := some "Disconnected" }, false⟩ ∧
    get_quote (some ⟨fun _ => Except.error e, ld₁, ld₂⟩) symbol mock =
      ⟨{ symbol := symbol, price := 0, error := some e }, true⟩ ∧
    get_quote (some ⟨fun _ => Except.ok [], ld₁, ld₂⟩) symbol mock =
      ⟨{ symbol := symbol, price := 0, status := some "Invalid Symbol" }, true⟩ ∧
    get_quote (some ⟨fun _ => Except.ok (r :: rs), fun _ => none, fun _ => none⟩) symbol mock =
      ⟨{ symbol := symbol, price := 0, status := some "Waiting for tick..." }, true⟩ := by
  unfold get_quote
  rw [h]
  exact ⟨rfl, rfl, rfl, rfl⟩

/-- C3 (witness): the fault-containment theorem at "TCS.NS" with concrete
sessions. -/
theorem quote_fault_containment_witness :
    is_indian_stock "TCS.NS" = true ∧
    (get_quote none "TCS.NS" wMock =
      ⟨{ symbol := "TCS.NS", price := 0, status := some "Disconnected" }, false⟩ ∧
    get_quote (some ⟨fun _ => Except.error "boom", noTicks, noTicks⟩) "TCS.NS" wMock =
      ⟨{ symbol := "TCS.NS", price := 0, error := some "boom" }, true⟩ ∧
    get_quote (some ⟨fun _ => Except.ok [], noTicks, noTicks⟩) "TCS.NS" wMock =
      ⟨{ symbol := "TCS.NS", price := 0, status := some "Invalid Symbol" }, true⟩ ∧
    get_quote (some ⟨fun _ => Except.ok (0 :: []), fun _ => none, fun _ => none⟩) "TCS.NS" wMock =
      ⟨{ symbol := "TCS.NS", price := 0, status := some "Waiting for tick..." }, true⟩) :=
  ⟨by decide, quote_fault_containment "TCS.NS" (by decide) wMock "boom" noTicks noTicks 0 []⟩

/-- C4: for a VENDOR-routed symbol, /history never surfaces an error: on a
200 response each payload row with at least 5 fields becomes one candle
(volume defaulting to 0 when the row has only 5 fields) and shorter rows
are dropped silently; on a raised request exception, a non-200 status, or a
body-parse exception it returns the same mock-generated series the
MOCK-routed branch returns (same generator, same arguments). -/
theorem history_fault_containment (symbol : String)
    (h : is_indian_stock symbol = true) (period : String) (today : ℤ)
    (rw rv : ℕ → ℚ) (u pw : Option String) (e pe : String) (st : ℕ)
    (hst : st ≠ 200) (recs : List (List JVal)) (row : List JVal)
    (hrow : row.length = 5) (symbol₂ : String)
    (h₂ : is_indian_stock symbol₂ = false)
    (http₂ : HistParams → Except String HttpResult) :
    get_history symbol period today rw rv u pw (fun _ => Except.error e) =
      ⟨generate_mock_history rw rv today 150, true⟩ ∧
    get_history symbol period today rw rv u pw
        (fun _ => Except.ok ⟨st, HistBody.body (some recs)⟩) =
      ⟨generate_mock_history rw rv today 150, true⟩ ∧
    get_history symbol period today rw rv u pw
        (fun _ => Except.ok ⟨200, HistBody.parseError pe⟩) =
      ⟨generate_mock_history rw rv today 150, true⟩ ∧
    get_history symbol period today rw rv u pw
        (fun _ => Except.ok ⟨200, HistBody.body (some recs)⟩) =
      ⟨(recs.filter fun r' => decide (5 ≤ r'.length)).map mkCandle, true⟩ ∧
    (mkCandle row).volume = JVal.num 0 ∧
    get_history symbol₂ period today rw rv u pw http₂ =
      ⟨generate_mock_history rw rv today 150, false⟩ := by
  refine ⟨?_, ?_, ?_, ?_, ?_, ?_⟩
  · unfold get_history; rw [h]; simp
  · unfold get_history; rw [h]; simp [hst]
  · unfold get_history; rw [h]; simp
  · unfold get_history; rw [h]; simp [filterMap_ite]
  · simp [mkCandle, hrow]
  · unfold get_history; rw [h₂]; simp

/-- C4 (witness): the history fault-containment theorem at "TCS.NS" /
"AAPL" with a failing concrete call, status 500, an empty record list and a
5-field row. -/
theorem history_fault_containment_witness :
    is_indian_stock "TCS.NS" = true ∧ (500 : ℕ) ≠ 200 ∧
    fiveRow.length = 5 ∧ is_indian_stock "AAPL" = false ∧
    (get_history "TCS.NS" "1mo" 0 zeroD oneK none none (fun _ => Except.error "t") =
      ⟨generate_mock_history zeroD oneK 0 150, true⟩ ∧
    get_history "TCS.NS" "1mo" 0 zeroD oneK none none
        (fun _ => Except.ok ⟨500, HistBody.body (some [])⟩) =
      ⟨generate_mock_history zeroD oneK 0 150, true⟩ ∧
    get_history "TCS.NS" "1mo" 0 zeroD oneK none none
        (fun _ => Except.ok ⟨200, HistBody.parseError "p"⟩) =
      ⟨generate_mock_history zeroD oneK 0 150, true⟩ ∧
    get_history "TCS.NS" "1mo" 0 zeroD oneK none none
        (fun _ => Except.ok ⟨200, HistBody.body (some [])⟩) =
      ⟨(([] : List (List JVal)).filter fun r' => decide (5 ≤ r'.length)).map mkCandle, true⟩ ∧
    (mkCandle fiveRow).volume = JVal.num 0 ∧
    get_history "AAPL" "1mo" 0 zeroD oneK none none histHttpErr =
      ⟨generate_mock_history zeroD oneK 0 150, false⟩) :=
  ⟨by decide, by decide, by decide, by decide,
   history_fault_containment "TCS.NS" (by decide) "1mo" 0 zeroD oneK none none
     "t" "p" 500 (by decide) [] fiveRow (by decide) "AAPL" (by decide) histHttpErr⟩

/-- C5: the period parameter maps to the vendor request exactly as claimed:
"1d" gives the last 5 days at resolution "15min", "1y" the last 365 days at
"EOD", and every other period (the default "1mo" included) the last 30 days
at "EOD" — every unrecognized period behaves identically to "1mo". -/
theorem history_period_mapping (symbol : String) (today : ℤ)
    (u pw : Option String) (period : String) (h1 : period ≠ "1d")
    (h2 : period ≠ "1y") :
    history_params symbol "1d" today u pw =
      ⟨get_clean_symbol symbol, "15min", today - 5, today, u, pw⟩ ∧
    history_params symbol "1y" today u pw =
      ⟨get_clean_symbol symbol, "EOD", today - 365, today, u, pw⟩ ∧
    history_params symbol period today u pw =
      history_params symbol "1mo" today u pw ∧
    history_params symbol "1mo" today u pw =
      ⟨get_clean_symbol symbol, "EOD", today - 30, today, u, pw⟩ := by
  refine ⟨rfl, rfl, ?_, rfl⟩
  simp [history_params, h1, h2]

/-- C5 (witness): the period mapping at the unrecognized period "6mo". -/
theorem history_period_mapping_witness :
    ("6mo" : String) ≠ "1d" ∧ ("6mo" : String) ≠ "1y" ∧
    (history_params "RELIANCE.NS" "1d" 7 none none =
      ⟨get_clean_symbol "RELIANCE.NS", "15min", 7 - 5, 7, none, none⟩ ∧
    history_params "RELIANCE.NS" "1y" 7 none none =
      ⟨get_clean_symbol "RELIANCE.NS", "EOD", 7 - 365, 7, none, none⟩ ∧
    history_params "RELIANCE.NS" "6mo" 7 none none =
      history_params "RELIANCE.NS" "1mo" 7 none none ∧
    history_params "RELIANCE.NS" "1mo" 7 none none =
      ⟨get_clean_symbol "RELIANCE.NS", "EOD", 7 - 30, 7, none, none⟩) :=
  ⟨by decide, by decide,
   history_period_mapping "RELIANCE.NS" 7 none none "6mo" (by decide) (by decide)⟩

/-- C6: whenever the vendor fundamentals call fails (raised exception,
non-200 status, or body-parse exception), /fundamentals returns exactly the
untouched default record — every numeric field 0, shareholding all 0,
recommendation "WAITING" with all targets 0 — with currency "INR" for
VENDOR-routed symbols; MOCK-routed symbols never call the vendor and get
the same default record with currency "USD". -/
theorem fundamentals_failure_default (symbol : String)
    (h : is_indian_stock symbol = true) (u pw : Option String) (e pe : String)
    (st : ℕ) (hst : st ≠ 200) (body : Except String FundResponse)
    (symbol₂ : String) (h₂ : is_indian_stock symbol₂ = false)
    (http₂ : FundParams → Except String (ℕ × Except String FundResponse)) :
    get_fundamentals symbol u pw (fun _ => Except.error e) =
      ⟨{ market_cap := 0, pe_ratio := 0, peg_ratio := 0, book_value := 0,
         dividend_yield := 0, eps := 0, profit_margin := 0, roe := 0,
         debt_to_equity := 0,
         shareholding := { promoters := some 0, institutions := some 0, public := some 0 },
         forecast := { recommendation := "WAITING", targetMean := 0,
                       targetLow := 0, targetHigh := 0 },
         currency := "INR" }, true⟩ ∧
    get_fundamentals symbol u pw (fun _ => Except.ok (st, body)) =
      ⟨{ market_cap := 0, pe_ratio := 0, peg_ratio := 0, book_value := 0,
         dividend_yield := 0, eps := 0, profit_margin := 0, roe := 0,
         debt_to_equity := 0,
         shareholding := { promoters := some 0, institutions := some 0, public := some 0 },
         forecast := { recommendation := "WAITING", targetMean := 0,
                       targetLow := 0, targetHigh := 0 },
         currency := "INR" }, true⟩ ∧
    get_fundamentals symbol u pw (fun _ => Except.ok (200, Except.error pe)) =
      ⟨{ market_cap := 0, pe_ratio := 0, peg_ratio := 0, book_value := 0,
         dividend_yield := 0, eps := 0, profit_margin := 0, roe := 0,
         debt_to_equity := 0,
         shareholding := { promoters := some 0, institutions := some 0, public := some 0 },
         forecast := { recommendation := "WAITING", targetMean := 0,
                       targetLow := 0, targetHigh := 0 },
         currency := "INR" }, true⟩ ∧
    get_fundamentals symbol₂ u pw http₂ =
      ⟨{ market_cap := 0, pe_ratio := 0, peg_ratio := 0, book_value := 0,
         dividend_yield := 0, eps := 0, profit_margin := 0, roe := 0,
         debt_to_equity := 0,
         shareholding := { promoters := some 0, institutions := some 0, public := some 0 },
         forecast := { recommendation := "WAITING", targetMean := 0,
                       targetLow := 0, targetHigh := 0 },
         currency := "USD" }, false⟩ := by
  refine ⟨?_, ?_, ?_, ?_⟩
  · unfold get_fundamentals empty_data; rw [h]; simp
  · unfold get_fundamentals empty_data; rw [h]; simp [hst]
  · unfold get_fundamentals empty_data; rw [h]; simp
  · unfold get_fundamentals empty_data; rw [h₂]; simp

/-- C6 (witness): the fundamentals failure theorem at "TCS.NS" (vendor
path, status 404 / raised calls) and "AAPL" (mock path). -/
theorem fundamentals_failure_default_witness :
    is_indian_stock "TCS.NS" = true ∧ (404 : ℕ) ≠ 200 ∧
    is_indian_stock "AAPL" = false ∧
    (get_fundamentals "TCS.NS" none none (fun _ => Except.error "t") =
      ⟨{ market_cap := 0, pe_ratio := 0, peg_ratio := 0, book_value := 0,
         dividend_yield := 0, eps := 0, profit_margin := 0, roe := 0,
         debt_to_equity := 0,
         shareholding := { promoters := some 0, institutions := some 0, public := some 0 },
         forecast := { recommendation := "WAITING", targetMean := 0,
                       targetLow := 0, targetHigh := 0 },
         currency := "INR" }, true⟩ ∧
    get_fundamentals "TCS.NS" none none (fun _ => Except.ok (404, Except.error "x")) =
      ⟨{ market_cap := 0, pe_ratio := 0, peg_ratio := 0, book_value := 0,
         dividend_yield := 0, eps := 0, profit_margin := 0, roe := 0,
         debt_to_equity := 0,
         shareholding := { promoters := some 0, institutions := some 0, public := some 0 },
         forecast := { recommendation := "WAITING", targetMean := 0,
                       targetLow := 0, targetHigh := 0 },
         currency := "INR" }, true⟩ ∧
    get_fundamentals "TCS.NS" none none (fun _ => Except.ok (200, Except.error "p")) =
      ⟨{ market_cap := 0, pe_ratio := 0, peg_ratio := 0, book_value := 0,
         dividend_yield := 0, eps := 0, profit_margin := 0, roe := 0,
         debt_to_equity := 0,
         shareholding := { promoters := some 0, institutions := some 0, public := some 0 },
         forecast := { recommendation := "WAITING", targetMean := 0,
                       targetLow := 0, targetHigh := 0 },
         currency := "INR" }, true⟩ ∧
    get_fundamentals "AAPL" none none fundHttpErr =
      ⟨{ market_cap := 0, pe_ratio := 0, peg_ratio := 0, book_value := 0,
         dividend_yield := 0, eps := 0, profit_margin := 0, roe := 0,
         debt_to_equity := 0,
         shareholding := { promoters := some 0, institutions := some 0, public := some 0 },
         forecast := { recommendation := "WAITING", targetMean := 0,
                       targetLow := 0, targetHigh := 0 },
         currency := "USD" }, false⟩) :=
  ⟨by decide, by decide, by decide,
   fundamentals_failure_default "TCS.NS" (by decide) none none "t" "p" 404
     (by decide) (Except.error "x") "AAPL" (by decide) fundHttpErr⟩

/-- C7 (counterexample): the claim says the full fixed shape, the
shareholding breakdown with promoters/institutions/public included, is
always present on a successful vendor call; but the handler passes the
response's `shareholding` value through with default `{}`, so a 200
response missing that key yields a shareholding object with all three keys
absent. -/
theorem fundamentals_success_shareholding_absent :
    (get_fundamentals "TCS.NS" none none fundHttpEmpty).record.shareholding =
      { promoters := none, institutions := none, public := none } ∧
    (get_fundamentals "TCS.NS" none none fundHttpEmpty).record.shareholding.promoters
      = none := by decide

/-- C7 (amended): on a successful (200, parsed) vendor call the result is
built by overlaying each scalar field individually with per-field default 0
and the sentinel "N/A" for the recommendation, so fields missing from the
response stay at their defaults while all valuation ratios and the complete
forecast record are always present; the shareholding object, however, is
the response's value passed through unchanged, defaulting to the empty
mapping, so its promoters/institutions/public breakdown may be absent. -/
theorem fundamentals_success_overlay (symbol : String)
    (h : is_indian_stock symbol = true) (u pw : Option String)
    (rd : FundResponse) :
    get_fundamentals symbol u pw (fun _ => Except.ok (200, Except.ok rd)) =
      ⟨{ market_cap := rd.market_cap.getD 0, pe_ratio := rd.pe.getD 0,
         peg_ratio := rd.peg.getD 0, book_value := rd.book_value.getD 0,
         dividend_yield := rd.dividend_yield.getD 0, eps := rd.eps.getD 0,
         profit_margin := rd.profit_margin.getD 0, roe := rd.roe.getD 0,
         debt_to_equity := rd.debt_to_equity.getD 0,
         shareholding := rd.shareholding.getD
           { promoters := none, institutions := none, public := none },
         forecast := { recommendation := rd.recommendation.getD "N/A",
                       targetMean := rd.target_price.getD 0,
                       targetLow := rd.target_low.getD 0,
                       targetHigh := rd.target_high.getD 0 },
         currency := "INR" }, true⟩ := by
  unfold get_fundamentals; rw [h]; simp

/-- C7 (witness): the overlay theorem at "TCS.NS" with the all-absent
response object. -/
theorem fundamentals_success_overlay_witness :
    is_indian_stock "TCS.NS" = true ∧
    get_fundamentals "TCS.NS" none none
        (fun _ => Except.ok (200, Except.ok ({} : FundResponse))) =
      ⟨{ market_cap := (({} : FundResponse)).market_cap.getD 0,
         pe_ratio := (({} : FundResponse)).pe.getD 0,
         peg_ratio := (({} : FundResponse)).peg.getD 0,
         book_value := (({} : FundResponse)).book_value.getD 0,
         dividend_yield := (({} : FundResponse)).dividend_yield.getD 0,
         eps := (({} : FundResponse)).eps.getD 0,
         profit_margin := (({} : FundResponse)).profit_margin.getD 0,
         roe := (({} : FundResponse)).roe.getD 0,
         debt_to_equity := (({} : FundResponse)).debt_to_equity.getD 0,
         shareholding := (({} : FundResponse)).shareholding.getD
           { promoters := none, institutions := none, public := none },
         forecast := { recommendation := (({} : FundResponse)).recommendation.getD "N/A",
                       targetMean := (({} : FundResponse)).target_price.getD 0,
                       targetLow := (({} : FundResponse)).target_low.getD 0,
                       targetHigh := (({} : FundResponse)).target_high.getD 0 },
         currency := "INR" }, true⟩ :=
  ⟨by decide,
   fundamentals_success_overlay "TCS.NS" (by decide) none none {}⟩

/-- C8 (counterexample): the claim says that with the vendor credentials
absent no endpoint handler attempts a vendor call; but with `TD_USER` and
`TD_PASS` both unset the history and fundamentals handlers for a
VENDOR-routed symbol still reach their outbound `requests.get` calls. -/
theorem history_attempts_http_without_credentials :
    (get_history "TCS.NS" "1mo" 0 zeroD oneK none none histHttpErr).httpAttempted
      = true ∧
    (get_fundamentals "TCS.NS" none none fundHttpErr).httpAttempted = true := by
  decide

/-- C8 (amended): with the vendor credentials absent the process still
starts — the startup hook attempts no connection and leaves the session
unset — and /quote short-circuits to the "Disconnected" response without a
subscription attempt; the history and fundamentals handlers, however, still
attempt their vendor HTTP requests even without credentials, and return the
mock series / default record when that request fails. -/
theorem credentials_absent_degraded (pw : Option String)
    (connect : String → Option String → Except String Session)
    (symbol : String) (h : is_indian_stock symbol = true) (mock : MockDraws)
    (period : String) (today : ℤ) (rw rv : ℕ → ℚ) (e : String) :
    startup_event none pw connect = (none, false) ∧
    get_quote none symbol mock =
      ⟨{ symbol := symbol, price := 0, status := some "Disconnected" }, false⟩ ∧
    get_history symbol period today rw rv none none (fun _ => Except.error e) =
      ⟨generate_mock_history rw rv today 150, true⟩ ∧
    get_fundamentals symbol none none (fun _ => Except.error e) =
      ⟨empty_data symbol, true⟩ := by
  refine ⟨rfl, ?_, ?_, ?_⟩
  · unfold get_quote; rw [h]; rfl
  · unfold get_history; rw [h]; simp
  · unfold get_fundamentals; rw [h]; simp

/-- C8 (witness): the degraded-mode theorem at "TCS.NS" with a failing
connection attempt available but unused. -/
theorem credentials_absent_degraded_witness :
    is_indian_stock "TCS.NS" = true ∧
    (startup_event none none wConnect = (none, false) ∧
    get_quote none "TCS.NS" wMock =
      ⟨{ symbol := "TCS.NS", price := 0, status := some "Disconnected" }, false⟩ ∧
    get_history "TCS.NS" "1mo" 0 zeroD oneK none none (fun _ => Except.error "conn") =
      ⟨generate_mock_history zeroD oneK 0 150, true⟩ ∧
    get_fundamentals "TCS.NS" none none (fun _ => Except.error "conn") =
      ⟨empty_data "TCS.NS", true⟩) :=
  ⟨by decide,
   credentials_absent_degraded none wConnect "TCS.NS" (by decide) wMock "1mo" 0
     zeroD oneK "conn"⟩

/-- C9: the mock history generator returns exactly 30 daily candles in
ascending date order; each candle's open/high/low equal close×0.99,
close×1.01 and close×0.98 up to the two-decimal rounding tolerance (within
1/50), hence low ≤ open, close ≤ high (and low ≤ close, open ≤ high); and
each volume is an integer in the `random.uniform(1000, 10000)` band. -/
theorem mock_history_candles (rw rv : ℕ → ℚ) (today : ℤ) (base : ℚ)
    (hbase : 0 < base) (hw : ∀ n, 0 ≤ rw n ∧ rw n < 1)
    (hv : ∀ n, 1000 ≤ rv n ∧ rv n ≤ 10000) (i j : ℕ) (hi : i < 30)
    (hj : j < 30) (hij : i < j) :
    (generate_mock_history rw rv today base).length = 30 ∧
    ((generate_mock_history rw rv today base).getD i dCandle).date =
      JVal.day (today - (30 - (i : ℤ))) ∧
    dayOf ((generate_mock_history rw rv today base).getD i dCandle).date <
      dayOf ((generate_mock_history rw rv today base).getD j dCandle).date ∧
    |numOf ((generate_mock_history rw rv today base).getD i dCandle).«open» -
      numOf ((generate_mock_history rw rv today base).getD i dCandle).close * (99 / 100)| ≤ 1 / 50 ∧
    |numOf ((generate_mock_history rw rv today base).getD i dCandle).high -
      numOf ((generate_mock_history rw rv today base).getD i dCandle).close * (101 / 100)| ≤ 1 / 50 ∧
    |numOf ((generate_mock_history rw rv today base).getD i dCandle).low -
      numOf ((generate_mock_history rw rv today base).getD i dCandle).close * (98 / 100)| ≤ 1 / 50 ∧
    numOf ((generate_mock_history rw rv today base).getD i dCandle).low ≤
      numOf ((generate_mock_history rw rv today base).getD i dCandle).«open» ∧
    numOf ((generate_mock_history rw rv today base).getD i dCandle).low ≤
      numOf ((generate_mock_history rw rv today base).getD i dCandle).close ∧
    numOf ((generate_mock_history rw rv today base).getD i dCandle).«open» ≤
      numOf ((generate_mock_history rw rv today base).getD i dCandle).high ∧
    numOf ((generate_mock_history rw rv today base).getD i dCandle).close ≤
      numOf ((generate_mock_history rw rv today base).getD i dCandle).high ∧
    (∃ n : ℤ, ((generate_mock_history rw rv today base).getD i dCandle).volume =
      JVal.num (n : ℚ) ∧ 1000 ≤ n ∧ n ≤ 10000) := by
  have ei := mock_getD rw rv today base i hi
  have ej := mock_getD rw rv today base j hj
  have hp : 0 < walkPrice rw base (i + 1) := walkPrice_pos rw base hbase hw (i + 1)
  rw [ei, ej]
  dsimp only [dayOf, numOf]
  refine ⟨?_, rfl, ?_, ?_, ?_, ?_, ?_, ?_, ?_, ?_, ?_⟩
  · simp [generate_mock_history]
  · omega
  · exact round2_scale_close _ (99 / 100) (by norm_num) (by norm_num)
  · exact round2_scale_close _ (101 / 100) (by norm_num) (by norm_num)
  · exact round2_scale_close _ (98 / 100) (by norm_num) (by norm_num)
  · exact round2_mono (by nlinarith)
  · exact round2_mono (by nlinarith)
  · exact round2_mono (by nlinarith)
  · exact round2_mono (by nlinarith)
  · refine ⟨⌊rv i⌋, rfl, ?_, ?_⟩
    · exact Int.le_floor.mpr (by exact_mod_cast (hv i).1)
    · have hfl : ((⌊rv i⌋ : ℤ) : ℚ) ≤ 10000 := le_trans (Int.floor_le (rv i)) (hv i).2
      exact_mod_cast hfl

/-- C9 (witness): the mock-history shape theorem with all-zero walk draws,
constant volume draw 1000, base 150, at candles 0 and 1. -/
theorem mock_history_candles_witness :
    (0 : ℚ) < 150 ∧ (∀ n, 0 ≤ zeroD n ∧ zeroD n < 1) ∧
    (∀ n, 1000 ≤ oneK n ∧ oneK n ≤ 10000) ∧
    ((generate_mock_history zeroD oneK 0 150).length = 30 ∧
    ((generate_mock_history zeroD oneK 0 150).getD 0 dCandle).date =
      JVal.day (0 - (30 - ((0 : ℕ) : ℤ))) ∧
    dayOf ((generate_mock_history zeroD oneK 0 150).getD 0 dCandle).date <
      dayOf ((generate_mock_history zeroD oneK 0 150).getD 1 dCandle).date ∧
    |numOf ((generate_mock_history zeroD oneK 0 150).getD 0 dCandle).«open» -
      numOf ((generate_mock_history zeroD oneK 0 150).getD 0 dCandle).close * (99 / 100)| ≤ 1 / 50 ∧
    |numOf ((generate_mock_history zeroD oneK 0 150).getD 0 dCandle).high -
      numOf ((generate_mock_history zeroD oneK 0 150).getD 0 dCandle).close * (101 / 100)| ≤ 1 / 50 ∧
    |numOf ((generate_mock_history zeroD oneK 0 150).getD 0 dCandle).low -
      numOf ((generate_mock_history zeroD oneK 0 150).getD 0 dCandle).close * (98 / 100)| ≤ 1 / 50 ∧
    numOf ((generate_mock_history zeroD oneK 0 150).getD 0 dCandle).low ≤
      numOf ((generate_mock_history zeroD oneK 0 150).getD 0 dCandle).«open» ∧
    numOf ((generate_mock_history zeroD oneK 0 150).getD 0 dCandle).low ≤
      numOf ((generate_mock_history zeroD oneK 0 150).getD 0 dCandle).close ∧
    numOf ((generate_mock_history zeroD oneK 0 150).getD 0 dCandle).«open» ≤
      numOf ((generate_mock_history zeroD oneK 0 150).getD 0 dCandle).high ∧
    numOf ((generate_mock_history zeroD oneK 0 150).getD 0 dCandle).close ≤
      numOf ((generate_mock_history zeroD oneK 0 150).getD 0 dCandle).high ∧
    (∃ n : ℤ, ((generate_mock_history zeroD oneK 0 150).getD 0 dCandle).volume =
      JVal.num (n : ℚ) ∧ 1000 ≤ n ∧ n ≤ 10000)) :=
  ⟨by norm_num, fun n => ⟨le_rfl, by norm_num [zeroD]⟩,
   fun n => ⟨by norm_num [oneK], by norm_num [oneK]⟩,
   mock_history_candles zeroD oneK 0 150 (by norm_num)
     (fun n => ⟨le_rfl, by norm_num [zeroD]⟩)
     (fun n => ⟨by norm_num [oneK], by norm_num [oneK]⟩)
     0 1 (by norm_num) (by norm_num) (by norm_num)⟩

/-- C10: on the vendor tick path (whether the tick was already cached at
the first probe or only appeared at the re-check), the /quote response is
the tick response, which always carries currency "INR", source "TrueData",
and echoes the original external symbol, not the canonical one. -/
theorem quote_vendor_tick_fields (symbol : String)
    (h : is_indian_stock symbol = true) (mock : MockDraws) (t : Tick)
    (r : ℕ) (rs : List ℕ) (ld₂ : ℕ → Option Tick) :
    get_quote (some ⟨fun _ => Except.ok (r :: rs), fun _ => some t, ld₂⟩) symbol mock =
      ⟨tickResponse symbol t, true⟩ ∧
    get_quote (some ⟨fun _ => Except.ok (r :: rs), fun _ => none, fun _ => some t⟩) symbol mock =
      ⟨tickResponse symbol t, true⟩ ∧
    (tickResponse symbol t).currency = some "INR" ∧
    (tickResponse symbol t).source = some "TrueData" ∧
    (tickResponse symbol t).symbol = symbol ∧
    (tickResponse symbol t).orderbook = some (mkOrderbook t) := by
  unfold get_quote
  rw [h]
  exact ⟨rfl, rfl, rfl, rfl, rfl, rfl⟩

/-- C10 (witness): the vendor tick theorem at "RELIANCE.NS" with the empty
tick, showing also that the echoed symbol differs from the canonical
"RELIANCE". -/
theorem quote_vendor_tick_fields_witness :
    is_indian_stock "RELIANCE.NS" = true ∧
    get_clean_symbol "RELIANCE.NS" = "RELIANCE" ∧
    ¬ ("RELIANCE.NS" : String) = "RELIANCE" ∧
    (get_quote (some ⟨fun _ => Except.ok (0 :: []), fun _ => some wTick, noTicks⟩)
        "RELIANCE.NS" wMock = ⟨tickResponse "RELIANCE.NS" wTick, true⟩ ∧
    get_quote (some ⟨fun _ => Except.ok (0 :: []), fun _ => none, fun _ => some wTick⟩)
        "RELIANCE.NS" wMock = ⟨tickResponse "RELIANCE.NS" wTick, true⟩ ∧
    (tickResponse "RELIANCE.NS" wTick).currency = some "INR" ∧
    (tickResponse "RELIANCE.NS" wTick).source = some "TrueData" ∧
    (tickResponse "RELIANCE.NS" wTick).symbol = "RELIANCE.NS" ∧
    (tickResponse "RELIANCE.NS" wTick).orderbook = some (mkOrderbook wTick)) :=
  ⟨by decide, by decide, by decide,
   quote_vendor_tick_fields "RELIANCE.NS" (by decide) wMock wTick 0 [] noTicks⟩

end PinoProxy
